import Mathlib

/-!
Shallow embedding of the mutation & normalization pipeline of the
`pappaad` repository (Google Ads integration layer), together with
proofs of the specification claims about it.

Python strings are modelled as Lean `String` (a wrapped `List Char`);
Python `len` and slicing act on code points exactly as `String.length`
and `List.take` on the underlying character list.  Python methods that
can raise are modelled with `Except String`; `None`-able attributes with
`Option`.
-/

/-! ## ad.py — constants, text assets, validation (source: src/ad.py) -/

def HEADLINE_MAX_LENGTH : Nat := 30
def MIN_HEADLINES : Nat := 3
def MIN_DESCRIPTIONS : Nat := 2
def MAX_HEADLINES : Nat := 15
def MAX_DESCRIPTIONS : Nat := 4

/-- Model of an item carrying a `.text` attribute (the headline /
description objects received from the web layer, whose `.text` field is
the only one this module reads). -/
structure TextItem where
  text : String
deriving Repr, DecidableEq

/-- Model of the `AdTextAsset` proto object built by
`GoogleAdsTextAssetCreator.create_text_asset`. -/
structure AdTextAsset where
  text : String
  pinned_field : Option String
deriving Repr, DecidableEq

/-- Embedding of `GoogleAdsTextAssetCreator.create_text_asset`
(src/ad.py lines 46-52).  The Python guard `if pinned_field:` skips the
assignment when the argument is `None` or falsy. -/
def create_text_asset (text : String) (pinned_field : Option String) : AdTextAsset :=
  { text := text
    pinned_field := match pinned_field with
      | some p => if p = "" then none else some p
      | none => none }

/-- Embedding of `GoogleAdsTextAssetCreator.truncate_headlines`
(src/ad.py lines 54-56): `headline.text[:HEADLINE_MAX_LENGTH]` slices
the first 30 characters. -/
def truncate_headlines (headlines : List TextItem) : List AdTextAsset :=
  headlines.map fun headline =>
    create_text_asset (String.mk (headline.text.data.take HEADLINE_MAX_LENGTH)) none

/-- Embedding of `AdValidator.validate_headlines_and_descriptions`
(src/ad.py lines 142-148).  `Except.error` models the raised
`ValueError`; `Except.ok ()` models a normal return. -/
def validate_headlines_and_descriptions (headlines descriptions : List TextItem) :
    Except String Unit :=
  if headlines.length < MIN_HEADLINES then
    Except.error "Number of Headlines must be 3 or greater"
  else if descriptions.length < MIN_DESCRIPTIONS then
    Except.error "Number of Descriptions must be 2 or greater"
  else
    Except.ok ()

/-! ## ad.py — ad creation and the update path -/

/-- Model of the validated ad input `AdData \x7burl, headlines, descriptions\x7d`
consumed by `GoogleAdsAdIntegration` (shape as read by src/ad.py). -/
structure AdData where
  url : String
  headlines : List TextItem
  descriptions : List TextItem
deriving Repr

/-- Resource path produced by `AdGroupService.ad_group_path`. -/
def ad_group_path (customer_id ad_group_id : String) : String :=
  "customers/" ++ customer_id ++ "/adGroups/" ++ ad_group_id

/-- Resource path produced by `AdService.ad_path`. -/
def ad_path (customer_id ad_id : String) : String :=
  "customers/" ++ customer_id ++ "/ads/" ++ ad_id

/-- The fixed UTM suffix appended in `_prepare_ad_group_ad`
(src/ad.py line 205); the template placeholders are literal text. -/
def utm_suffix : String :=
  "?utm_source=google&utm_medium=cpc&utm_campaign=\x7b\x7bcampaignid\x7d\x7d&utm_term=\x7b\x7bkeyword\x7d\x7d&utm_content=\x7b\x7bcreative\x7d\x7d"

/-- Model of the `AdGroupAd` creation payload assembled by
`GoogleAdsAdIntegration._prepare_ad_group_ad`. -/
structure AdGroupAdMessage where
  status_enabled : Bool
  ad_group : String
  final_urls : List String
  rsa_headlines : List AdTextAsset
  rsa_descriptions : List AdTextAsset
deriving Repr

/-- Embedding of `GoogleAdsAdIntegration._prepare_ad_group_ad`
(src/ad.py lines 193-225): appends the UTM suffix to `ad.url`, then
extends headlines (first `MAX_HEADLINES`) and descriptions (first
`MAX_DESCRIPTIONS`) as text assets.  The Python guards
`if ad.headlines:` / `if ad.descriptions:` only skip extending by an
empty list, which is the same as extending with the empty slice. -/
def prepare_ad_group_ad (account_id ad_group_id : String) (ad : AdData) : AdGroupAdMessage :=
  { status_enabled := true
    ad_group := ad_group_path account_id ad_group_id
    final_urls := [ad.url ++ utm_suffix]
    rsa_headlines := (ad.headlines.take MAX_HEADLINES).map fun h => create_text_asset h.text none
    rsa_descriptions := (ad.descriptions.take MAX_DESCRIPTIONS).map fun d => create_text_asset d.text none }

/-- Model of `AdUpdateConfig` (src/ad.py lines 33-39). -/
structure AdUpdateConfig where
  headlines : Option (List TextItem) := none
  descriptions : Option (List TextItem) := none
  final_urls : Option (List String) := none
deriving Repr

/-- Model of the `Ad` proto message mutated by the update path: the
fields this module ever sets (`resource_name`,
`responsive_search_ad.headlines`, `responsive_search_ad.descriptions`,
`final_urls`), all starting at their proto zero values. -/
structure AdMessage where
  resource_name : String
  rsa_headlines : List AdTextAsset
  rsa_descriptions : List AdTextAsset
  final_urls : List String
deriving Repr

/-- Embedding of `GoogleAdsAdIntegration._prepare_update_operation`
(src/ad.py lines 271-276): a fresh `AdOperation` whose `update` message
has only `resource_name` set. -/
def prepare_update_operation (account_id googleads_ad_id : String) : AdMessage :=
  { resource_name := ad_path account_id googleads_ad_id
    rsa_headlines := []
    rsa_descriptions := []
    final_urls := [] }

/-- Embedding of the config-application part of
`GoogleAdsAdIntegration._update_responsive_search_ad`
(src/ad.py lines 257-267): each `clear()`+`extend(...)` pair replaces
the corresponding repeated field.  Headlines go through
`truncate_headlines`; descriptions through `create_text_asset` only. -/
def apply_update_config (msg : AdMessage) (config : AdUpdateConfig) : AdMessage :=
  let msg := match config.headlines with
    | some hs => { msg with rsa_headlines := truncate_headlines hs }
    | none => msg
  let msg := match config.descriptions with
    | some ds => { msg with rsa_descriptions := ds.map fun d => create_text_asset d.text none }
    | none => msg
  match config.final_urls with
  | some us => { msg with final_urls := us }
  | none => msg

/-- Model of `google.api_core.protobuf_helpers.field_mask(None, msg)` as
invoked in `GoogleAdsAdIntegration._execute_update_operation`
(src/ad.py lines 300-303), restricted to the four fields this module
sets: it lists the dotted path of every field of the update message that
differs from its proto zero value.  The claims proved below are
insensitive to the order of the returned paths. -/
def field_mask (m : AdMessage) : List String :=
  (if m.resource_name ≠ "" then ["resource_name"] else []) ++
  (if m.final_urls ≠ [] then ["final_urls"] else []) ++
  (if m.rsa_headlines ≠ [] then ["responsive_search_ad.headlines"] else []) ++
  (if m.rsa_descriptions ≠ [] then ["responsive_search_ad.descriptions"] else [])

/-- The update mask computed for one run of
`_update_responsive_search_ad` followed by `_execute_update_operation`:
the mask of the update message after the config has been applied. -/
def update_mask_for (account_id googleads_ad_id : String) (config : AdUpdateConfig) :
    List String :=
  field_mask (apply_update_config (prepare_update_operation account_id googleads_ad_id) config)

/-! ## errors.py — normalized error extraction (source: src/errors.py) -/

/-- Model of a Python attribute that may be missing from the object
entirely (`hasattr` false, access raises `AttributeError`), present with
value `None` (access succeeds, truthiness false), or present with a
value. -/
inductive PyAttr (α : Type) where
  | missing : PyAttr α
  | noneVal : PyAttr α
  | val : α → PyAttr α
deriving Repr, DecidableEq

/-- Model of an error-location object: the `field_name` strings of its
`field_path_elements`. -/
structure ErrorLocation where
  field_path_elements : List String
deriving Repr, DecidableEq

/-- Model of one entry of `ex.failure.errors`.  `location` uses the
three-state attribute model; `details` models the optional detail map
(as the key/value pairs of `details.to_dict()`, `none` when the
attribute is missing or the conversion raises); `trigger` models
`trigger.string_value`, `none` when any attribute in the chain is
missing or `None`. -/
structure FailureError where
  location : PyAttr ErrorLocation
  details : Option (List (String × String))
  trigger : Option String
deriving Repr, DecidableEq

/-- Model of `ex.error`: the exception's error-code name plus the three
attributes probed by `_extract_error_message`, each `none` when the
attribute is absent. -/
structure GoogleAdsExceptionError where
  code_name : String
  policy_violation_details : Option String
  message : Option String
  details : Option String
deriving Repr, DecidableEq

/-- Model of a `GoogleAdsException` as read by `GoogleAdsErrorHandler`:
`request_id`, the `error` object, and the `failure.errors` list. -/
structure GoogleAdsException where
  request_id : String
  error : GoogleAdsExceptionError
  failure_errors : List FailureError
deriving Repr, DecidableEq

/-- Model of the `GoogleAdsErrorDetail` dataclass (src/errors.py
lines 6-9). -/
structure GoogleAdsErrorDetail where
  type_ : String
  value : String
deriving Repr, DecidableEq

/-- Model of the `GoogleAdsError` dataclass (src/errors.py
lines 12-23). -/
structure GoogleAdsError where
  error_request_id : String
  error_code : String
  error_message : String
  fields : List String
  class_name : String
  id : Option String
  class_id : Option String
  details : List GoogleAdsErrorDetail
  trigger : Option String
  location : Option (List String)
deriving Repr, DecidableEq

/-- Embedding of `GoogleAdsErrorHandler._extract_error_message`
(src/errors.py lines 50-59): prefer the policy-violation display name
when that attribute is present; else, when both `message` and `details`
attributes are present, return `details`; else fall back to
`getattr(..., "message", "") or getattr(..., "details", "")`. -/
def extract_error_message (ex : GoogleAdsException) : String :=
  match ex.error.policy_violation_details with
  | some policy_name => policy_name
  | none =>
    match ex.error.message, ex.error.details with
    | some _, some d => d
    | m, d => if m.getD "" ≠ "" then m.getD "" else d.getD ""

/-- Recursion of `GoogleAdsErrorHandler._extract_error_fields`
(src/errors.py lines 61-68) over `ex.failure.errors`, with the
accumulated `fields` list.  The guard `if error.location:` evaluates
`error.location` first, so a missing attribute raises `AttributeError`
(no `try` protects this loop); a present `None` is falsy and skipped;
a present location contributes its `field_name` elements in order. -/
def extract_error_fields_go : List FailureError → List String → Except String (List String)
  | [], acc => Except.ok acc
  | e :: rest, acc =>
    match e.location with
    | PyAttr.missing => Except.error "AttributeError"
    | PyAttr.noneVal => extract_error_fields_go rest acc
    | PyAttr.val l => extract_error_fields_go rest (acc ++ l.field_path_elements)

/-- Embedding of `GoogleAdsErrorHandler._extract_error_fields`. -/
def extract_error_fields (ex : GoogleAdsException) : Except String (List String) :=
  extract_error_fields_go ex.failure_errors []

/-- Embedding of `GoogleAdsErrorHandler._extract_error_details`
(src/errors.py lines 70-83): first failure error only; `IndexError` on
an empty list and `AttributeError` on a missing/unconvertible `details`
are both swallowed, yielding `[]`. -/
def extract_error_details (ex : GoogleAdsException) : List GoogleAdsErrorDetail :=
  match ex.failure_errors with
  | [] => []
  | e :: _ =>
    match e.details with
    | some kvs => kvs.map fun kv => { type_ := kv.1, value := kv.2 }
    | none => []

/-- Embedding of `GoogleAdsErrorHandler._extract_trigger`
(src/errors.py lines 85-91): `errors[0].trigger.string_value` with
`AttributeError`/`IndexError` mapped to `None`. -/
def extract_trigger (ex : GoogleAdsException) : Option String :=
  ex.failure_errors.head?.bind FailureError.trigger

/-- Embedding of `GoogleAdsErrorHandler._extract_location`
(src/errors.py lines 93-99): `errors[0].location.field_path_elements`
with `AttributeError`/`IndexError` mapped to `None` (both a missing and
a `None` location end in the handler). -/
def extract_location (ex : GoogleAdsException) : Option (List String) :=
  match ex.failure_errors with
  | [] => none
  | e :: _ =>
    match e.location with
    | PyAttr.val l => some l.field_path_elements
    | _ => none

/-- Embedding of `GoogleAdsErrorHandler.create_error`
(src/errors.py lines 29-48).  An uncaught `AttributeError` raised by
`_extract_error_fields` propagates out of `create_error`; otherwise the
normalized `GoogleAdsError` record is assembled from the per-tier
extractors. -/
def create_error (ex : GoogleAdsException) (class_name : String)
    (id : Option String) (class_id : Option String) : Except String GoogleAdsError :=
  match extract_error_fields ex with
  | Except.error msg => Except.error msg
  | Except.ok fields =>
    Except.ok
      { error_request_id := ex.request_id
        error_code := ex.error.code_name
        error_message := extract_error_message ex
        fields := fields
        class_name := class_name
        id := id
        class_id := class_id
        details := extract_error_details ex
        trigger := extract_trigger ex
        location := extract_location ex }

/-! ## keywords.py — the keyword facade (source: src/keywords.py) -/

/-- Model of the `KeywordMatchType` string enum (src/keywords.py
lines 101-104) as the closed set of match-type enum values. -/
inductive KeywordMatchType where
  | EXACT
  | BROAD
  | PHRASE
deriving Repr, DecidableEq

/-- Embedding of the `match_type_mapping.get(self.match_type, BROAD)`
lookup (src/keywords.py lines 150-156): a 3-way closed mapping keyed by
the string value, defaulting unmapped values to BROAD. -/
def match_type_mapping (match_type : String) : KeywordMatchType :=
  if match_type = "EXACT" then KeywordMatchType.EXACT
  else if match_type = "BROAD" then KeywordMatchType.BROAD
  else if match_type = "PHRASE" then KeywordMatchType.PHRASE
  else KeywordMatchType.BROAD

/-- Model of a local keyword record (`keyword.id`, `keyword.text` as
read by src/keywords.py). -/
structure Keyword where
  id : Nat
  text : String
deriving Repr, DecidableEq

/-- Model of an `AdGroupCriterionOperation` create payload as assembled
by `_create_base_criterion_operation` (src/keywords.py lines 137-158). -/
structure AdGroupCriterionOperation where
  ad_group : String
  status_enabled : Bool
  keyword_text : String
  negative : Bool
  match_type : KeywordMatchType
deriving Repr, DecidableEq

/-- Model of one entry of `response.results` from the remote mutate
call. -/
structure MutateResult where
  resource_name : String
deriving Repr, DecidableEq

/-- Model of the mutable state of a `GoogleAdsKeywordIntegration`
instance (src/keywords.py lines 107-123).  `client` records whether a
client handle is present (the code only tests its truthiness). -/
structure GoogleAdsKeywordIntegration where
  client : Bool
  googleads_account_id : String
  googleads_ad_group_id : String
  glitch_campaign_id : Option String
  keywords : List Keyword
  match_type : String
  errors : List GoogleAdsError
deriving Repr, DecidableEq

/-- The remote `AdGroupCriterionService.mutate_ad_group_criteria` call,
modelled as an oracle from customer id and operations to either a
result list or a raised `GoogleAdsException`. -/
def MutateOracle : Type :=
  String → List AdGroupCriterionOperation → Except GoogleAdsException (List MutateResult)

/-- Embedding of
`GoogleAdsKeywordIntegration._create_base_criterion_operation`
(src/keywords.py lines 137-158). -/
def create_base_criterion_operation (st : GoogleAdsKeywordIntegration)
    (keyword_text : String) (is_negative : Bool) : AdGroupCriterionOperation :=
  { ad_group := ad_group_path st.googleads_account_id st.googleads_ad_group_id
    status_enabled := true
    keyword_text := keyword_text
    negative := is_negative
    match_type := match_type_mapping st.match_type }

/-- The possible Python return values of `_batch_mutate_keywords`
(src/keywords.py lines 160-174): the `[], []` early return, the
`(None, pairs)` success tuple, the `(e, [])` tuple when a
`GoogleAdsException` is caught on a non-negative batch, and the bare
`[]` returned when one is caught on a negative batch. -/
inductive BatchMutateReturn where
  | guard_empty : BatchMutateReturn
  | success : List (Nat × String) → BatchMutateReturn
  | failure : GoogleAdsException → BatchMutateReturn
  | negative_failure : BatchMutateReturn
deriving Repr, DecidableEq

/-- Embedding of
`GoogleAdsKeywordIntegration._process_mutation_response`
(src/keywords.py lines 176-180): zip the local keyword ids with the
returned resource names, positionally. -/
def process_mutation_response (st : GoogleAdsKeywordIntegration)
    (response_results : List MutateResult) : BatchMutateReturn :=
  BatchMutateReturn.success
    (List.zip (st.keywords.map Keyword.id) (response_results.map MutateResult.resource_name))

/-- Embedding of `GoogleAdsKeywordIntegration._batch_mutate_keywords`
(src/keywords.py lines 160-174).  The result carries the Python return
value, the instance state after the call (the method never writes any
attribute, in particular not `self.errors`), and a flag recording
whether the remote mutate call was made. -/
def batch_mutate_keywords (st : GoogleAdsKeywordIntegration) (oracle : MutateOracle)
    (operations : List AdGroupCriterionOperation) (is_negative : Bool) :
    BatchMutateReturn × GoogleAdsKeywordIntegration × Bool :=
  if st.keywords.isEmpty || !st.client then
    (BatchMutateReturn.guard_empty, st, false)
  else
    match oracle st.googleads_account_id operations with
    | Except.ok response_results => (process_mutation_response st response_results, st, true)
    | Except.error e =>
      ((if is_negative then BatchMutateReturn.negative_failure else BatchMutateReturn.failure e),
        st, true)

/-- Embedding of `GoogleAdsKeywordIntegration._validate_prerequisites`
(src/keywords.py lines 200-202): `bool(self.keywords and self.client)`. -/
def validate_prerequisites (st : GoogleAdsKeywordIntegration) : Bool :=
  !st.keywords.isEmpty && st.client

/-- Embedding of `GoogleAdsKeywordIntegration.add_keywords_to_googleads`
(src/keywords.py lines 182-188): `none` models the `None` early return
on failed prerequisites; otherwise one create operation is built per
keyword, in order, and the batch is executed.  The final flag records
whether the remote call was made. -/
def add_keywords_to_googleads (st : GoogleAdsKeywordIntegration) (oracle : MutateOracle) :
    Option BatchMutateReturn × GoogleAdsKeywordIntegration × Bool :=
  if !validate_prerequisites st then
    (none, st, false)
  else
    let operations := st.keywords.map fun keyword =>
      create_base_criterion_operation st keyword.text false
    let r := batch_mutate_keywords st oracle operations false
    (some r.1, r.2.1, r.2.2)

/-- Embedding of `GoogleAdsKeywordIntegration.add_error`
(src/keywords.py lines 256-261): normalize the exception via
`GoogleAdsErrorHandler.create_error` and append it to `self.errors`.
The `class_id` argument `getattr(self, "keyword_id", None)` is `None`
because no code in the repository ever sets a `keyword_id` attribute on
this class.  A raise from `create_error` propagates. -/
def add_error (st : GoogleAdsKeywordIntegration) (ex : GoogleAdsException) :
    Except String GoogleAdsKeywordIntegration :=
  match create_error ex "Keyword" st.glitch_campaign_id none with
  | Except.error msg => Except.error msg
  | Except.ok err => Except.ok { st with errors := st.errors ++ [err] }

/-! ## llm_services.py — constrained generation (source: src/llm_services.py) -/

/-- Model of the `AdKeywordHeadline` response model (src/llm_services.py
lines 248-250). -/
structure AdKeywordHeadline where
  keyword : String
  headline : String
deriving Repr, DecidableEq

/-- Acceptance test of the generation loop (src/llm_services.py
line 306): candidate length at most 29 and candidate not already among
the caller-supplied existing headlines. -/
def headline_acceptable (existing_headlines : List String) (headline : String) : Bool :=
  headline.length ≤ 29 && !existing_headlines.contains headline

/-- Retry recursion of `gen_ad_keyword_headline` (src/llm_services.py
lines 259-309): on each attempt the generative call (modelled by
`oracle`, indexed by attempt number) yields a candidate list; the first
acceptable candidate is returned; otherwise the loop retries until the
remaining retry budget is exhausted. -/
def gen_ad_keyword_headline_go (oracle : Nat → List String) (keyword : String)
    (existing_headlines : List String) : Nat → Nat → Option AdKeywordHeadline
  | 0, _ => none
  | n + 1, attempt =>
    match (oracle attempt).find? (headline_acceptable existing_headlines) with
    | some headline => some { keyword := keyword, headline := headline }
    | none => gen_ad_keyword_headline_go oracle keyword existing_headlines n (attempt + 1)

/-- Embedding of `gen_ad_keyword_headline` (src/llm_services.py
lines 258-311).  `oracle n` is the `result.headlines` list returned by
the n-th chat-completion call for the given content and keyword; the
`Except.error` value models the exception raised when all retries are
exhausted. -/
def gen_ad_keyword_headline (oracle : Nat → List String) (keyword : String)
    (max_retries : Nat) (existing_headlines : List String) :
    Except String AdKeywordHeadline :=
  match gen_ad_keyword_headline_go oracle keyword existing_headlines max_retries 0 with
  | some r => Except.ok r
  | none =>
    Except.error ("Failed to generate a valid headline after " ++ toString max_retries ++ " retries")

/-- Default value of the `max_retries` parameter of
`gen_ad_keyword_headline` (src/llm_services.py line 258). -/
def gen_ad_keyword_headline_default_retries : Nat := 5

/-- ASCII model of the Python regex class `\w` (word character):
letters, digits and underscore. -/
def py_word_char (c : Char) : Bool :=
  c.isAlphanum || c = '_'

/-- ASCII model of the Python regex class `\s` (whitespace). -/
def py_whitespace_char (c : Char) : Bool :=
  c = ' ' || c = '\t' || c = '\n' || c = '\r' || c = '\x0b' || c = '\x0c'

/-- Character class of the pattern `^[a-zA-Z0-9 ]*$`. -/
def alnum_space_char (c : Char) : Bool :=
  c.isAlphanum || c = ' '

/-- Model of `re.compile(r"^[a-zA-Z0-9 ]*$").match(v)` succeeding
(src/llm_services.py lines 134-135): every character is in the class,
where Python's `$` also tolerates one trailing newline. -/
def matches_alnum_space (v : String) : Bool :=
  v.data.all alnum_space_char ||
    (match v.data.getLast? with
      | some c => c = '\n' && v.data.dropLast.all alnum_space_char
      | none => false)

/-- Embedding of `llm_output_constraint_check` (src/llm_services.py
lines 127-138): raise `ValueError` when the text exceeds the bound;
return it unchanged when it matches `^[a-zA-Z0-9 ]*$`; otherwise strip
every character matching `[^\w\s]` (neither word character nor
whitespace). -/
def llm_output_constraint_check (v : String) (length : Nat) : Except String String :=
  if v.length > length then
    Except.error ("Text must be less than " ++ toString length ++ " characters")
  else if !matches_alnum_space v then
    Except.ok (String.mk (v.data.filter fun c => py_word_char c || py_whitespace_char c))
  else
    Except.ok v

/-- Default value of the `length` parameter of
`llm_output_constraint_check` (src/llm_services.py line 127). -/
def llm_output_constraint_check_default_length : Nat := 30

/-! ## Concrete instances used in counterexamples and witnesses -/

/-- Sample remote exception with an empty failure-error list. -/
def sample_exception : GoogleAdsException :=
  { request_id := "req-1"
    error :=
      { code_name := "INTERNAL_ERROR"
        policy_violation_details := none
        message := none
        details := none }
    failure_errors := [] }

/-- Remote oracle whose mutate call always raises `sample_exception`. -/
def raising_oracle : MutateOracle := fun _ _ => Except.error sample_exception

/-- Sample successful mutate response with three results. -/
def results3 : List MutateResult :=
  [{ resource_name := "rn1" }, { resource_name := "rn2" }, { resource_name := "rn3" }]

/-- Remote oracle whose mutate call always succeeds with `results3`. -/
def ok_oracle : MutateOracle := fun _ _ => Except.ok results3

/-- Keyword facade state holding three keyword creates. -/
def keyword_state3 : GoogleAdsKeywordIntegration :=
  { client := true
    googleads_account_id := "111"
    googleads_ad_group_id := "222"
    glitch_campaign_id := some "333"
    keywords := [{ id := 1, text := "k1" }, { id := 2, text := "k2" }, { id := 3, text := "k3" }]
    match_type := "BROAD"
    errors := [] }

/-- Keyword facade state with an empty keyword list. -/
def keyword_state_empty : GoogleAdsKeywordIntegration :=
  { keyword_state3 with keywords := [] }

/-- Exception whose single failure error lacks the `location` attribute
entirely. -/
def exception_missing_location : GoogleAdsException :=
  { request_id := "req-2"
    error :=
      { code_name := "REQUEST_ERROR"
        policy_violation_details := none
        message := none
        details := none }
    failure_errors := [{ location := PyAttr.missing, details := none, trigger := none }] }

/-- Exception whose single failure error has a `location` attribute that
is present but `None`. -/
def exception_none_location : GoogleAdsException :=
  { request_id := "req-3"
    error :=
      { code_name := "FIELD_ERROR"
        policy_violation_details := none
        message := some "msg"
        details := none }
    failure_errors := [{ location := PyAttr.noneVal, details := none, trigger := none }] }

/-- Generation oracle that always produces one over-length candidate. -/
def rejecting_oracle : Nat → List String :=
  fun _ => ["This Headline Is Way Too Long For The Bound"]

/-! ## Theorems for claims C6-C9 -/

/-- Membership in the computed field mask, field by field. -/
theorem mem_field_mask (m : AdMessage) (p : String) :
    p ∈ field_mask m ↔
      (p = "resource_name" ∧ m.resource_name ≠ "") ∨
      (p = "final_urls" ∧ m.final_urls ≠ []) ∨
      (p = "responsive_search_ad.headlines" ∧ m.rsa_headlines ≠ []) ∨
      (p = "responsive_search_ad.descriptions" ∧ m.rsa_descriptions ≠ []) := by
  unfold field_mask
  by_cases h1 : m.resource_name = "" <;> by_cases h2 : m.final_urls = [] <;>
    by_cases h3 : m.rsa_headlines = [] <;> by_cases h4 : m.rsa_descriptions = [] <;>
      simp [h1, h2, h3, h4]

/-- Resource paths returned by `ad_path` are never the empty string. -/
theorem ad_path_ne_empty (a b : String) : ad_path a b ≠ "" := by
  unfold ad_path
  intro h
  have hd := congrArg String.data h
  simp [String.data_append] at hd

/-- Headline truncation never changes whether the list is empty. -/
theorem truncate_headlines_eq_nil (hs : List TextItem) :
    truncate_headlines hs = [] ↔ hs = [] := by
  unfold truncate_headlines
  exact List.map_eq_nil_iff

/-- C6 counterexample: for the update config with only headlines
populated, the computed update mask is not `["headlines"]`: it also
contains `resource_name` (set by `_prepare_update_operation` before the
mask is computed), a field not present in the update config. -/
theorem C6_counterexample :
    update_mask_for "1" "2" { headlines := some [⟨"a"⟩] }
        = ["resource_name", "responsive_search_ad.headlines"] ∧
      "resource_name" ∈ update_mask_for "1" "2" { headlines := some [⟨"a"⟩] } ∧
      update_mask_for "1" "2" { headlines := some [⟨"a"⟩] } ≠ ["headlines"] := by
  refine ⟨by decide, by decide, by decide⟩

/-- C6 amended: the computed update mask always contains
`resource_name` (the ad identifier set while preparing the operation),
contains `responsive_search_ad.headlines` /
`responsive_search_ad.descriptions` / `final_urls` exactly when the
corresponding config field is set to a non-empty list, and contains no
other path. -/
theorem C6_amended_update_mask (account_id googleads_ad_id : String)
    (config : AdUpdateConfig) :
    "resource_name" ∈ update_mask_for account_id googleads_ad_id config ∧
    ("responsive_search_ad.headlines" ∈ update_mask_for account_id googleads_ad_id config ↔
      ∃ hs, config.headlines = some hs ∧ hs ≠ []) ∧
    ("responsive_search_ad.descriptions" ∈ update_mask_for account_id googleads_ad_id config ↔
      ∃ ds, config.descriptions = some ds ∧ ds ≠ []) ∧
    ("final_urls" ∈ update_mask_for account_id googleads_ad_id config ↔
      ∃ us, config.final_urls = some us ∧ us ≠ []) ∧
    ∀ p ∈ update_mask_for account_id googleads_ad_id config,
      p = "resource_name" ∨ p = "final_urls" ∨ p = "responsive_search_ad.headlines" ∨
        p = "responsive_search_ad.descriptions" := by
  obtain ⟨ho, dopt, uo⟩ := config
  have hmsg : apply_update_config (prepare_update_operation account_id googleads_ad_id)
      ⟨ho, dopt, uo⟩ =
      { resource_name := ad_path account_id googleads_ad_id
        rsa_headlines := (ho.map truncate_headlines).getD []
        rsa_descriptions := (dopt.map (List.map fun d => create_text_asset d.text none)).getD []
        final_urls := uo.getD [] } := by
    cases ho <;> cases dopt <;> cases uo <;> rfl
  unfold update_mask_for
  rw [hmsg]
  refine ⟨?_, ?_, ?_, ?_, ?_⟩
  · rw [mem_field_mask]
    exact Or.inl ⟨rfl, ad_path_ne_empty _ _⟩
  · rw [mem_field_mask]
    cases ho <;> simp [truncate_headlines_eq_nil]
  · rw [mem_field_mask]
    cases dopt <;> simp [List.map_eq_nil_iff]
  · rw [mem_field_mask]
    cases uo <;> simp
  · intro p hp
    rw [mem_field_mask] at hp
    tauto

/-- Witness for C6: at a concrete account, ad id and headline-only
config, the mask contains `resource_name` and the headlines path. -/
theorem C6_witness :
    "resource_name" ∈ update_mask_for "3" "4" { headlines := some [⟨"b"⟩] } ∧
      "responsive_search_ad.headlines" ∈ update_mask_for "3" "4" { headlines := some [⟨"b"⟩] } :=
  ⟨(C6_amended_update_mask "3" "4" _).1,
   (C6_amended_update_mask "3" "4" _).2.1.mpr ⟨[⟨"b"⟩], rfl, by simp⟩⟩

/-- C7: every asset returned by `truncate_headlines` has text of length
at most 30 (hard slice truncation), and when every input text already
has length at most 30 the output texts equal the input texts unchanged. -/
theorem C7_truncate_headlines_bounded_and_idempotent (hs : List TextItem) :
    (∀ a ∈ truncate_headlines hs, a.text.length ≤ 30) ∧
    ((∀ h ∈ hs, h.text.length ≤ 30) →
      (truncate_headlines hs).map AdTextAsset.text = hs.map TextItem.text) := by
  constructor
  · intro a ha
    simp only [truncate_headlines, List.mem_map] at ha
    obtain ⟨h, _, rfl⟩ := ha
    show (String.mk (h.text.data.take HEADLINE_MAX_LENGTH)).length ≤ 30
    have h1 : (h.text.data.take HEADLINE_MAX_LENGTH).length ≤ HEADLINE_MAX_LENGTH := by
      rw [List.length_take]
      exact Nat.min_le_left _ _
    exact h1
  · intro hall
    simp only [truncate_headlines, List.map_map]
    apply List.map_congr_left
    intro h hmem
    have hlen : h.text.data.length ≤ HEADLINE_MAX_LENGTH := hall h hmem
    show String.mk (h.text.data.take HEADLINE_MAX_LENGTH) = h.text
    rw [List.take_of_length_le hlen]

/-- Witness for C7 at a concrete list containing an over-long and a
short headline. -/
theorem C7_witness :
    (∀ a ∈ truncate_headlines [⟨"aaaaaaaaaaaaaaaaaaaaaaaaaaaaaaaaaaa"⟩, ⟨"Short"⟩],
      a.text.length ≤ 30) ∧
    ((∀ h ∈ ([⟨"Short"⟩] : List TextItem), h.text.length ≤ 30) →
      (truncate_headlines [⟨"Short"⟩]).map AdTextAsset.text = [⟨"Short"⟩].map TextItem.text) :=
  ⟨(C7_truncate_headlines_bounded_and_idempotent _).1,
   (C7_truncate_headlines_bounded_and_idempotent _).2⟩

/-- C8: `validate_headlines_and_descriptions` fails exactly when there
are fewer than 3 headlines or fewer than 2 descriptions; in particular
it fails for 2 headlines with 3 descriptions and succeeds for 3
headlines with 2 descriptions. -/
theorem C8_validate_counts (headlines descriptions : List TextItem) :
    ((validate_headlines_and_descriptions headlines descriptions = Except.ok ()) ↔
      (3 ≤ headlines.length ∧ 2 ≤ descriptions.length)) ∧
    validate_headlines_and_descriptions [⟨"h1"⟩, ⟨"h2"⟩] [⟨"d1"⟩, ⟨"d2"⟩, ⟨"d3"⟩]
      = Except.error "Number of Headlines must be 3 or greater" ∧
    validate_headlines_and_descriptions [⟨"h1"⟩, ⟨"h2"⟩, ⟨"h3"⟩] [⟨"d1"⟩, ⟨"d2"⟩]
      = Except.ok () := by
  refine ⟨?_, rfl, rfl⟩
  unfold validate_headlines_and_descriptions MIN_HEADLINES MIN_DESCRIPTIONS
  constructor
  · intro hok
    by_cases h1 : headlines.length < 3
    · rw [if_pos h1] at hok
      exact absurd hok (by simp)
    · by_cases h2 : descriptions.length < 2
      · rw [if_neg h1, if_pos h2] at hok
        exact absurd hok (by simp)
      · exact ⟨Nat.le_of_not_lt h1, Nat.le_of_not_lt h2⟩
  · rintro ⟨h1, h2⟩
    rw [if_neg (Nat.not_lt_of_le h1), if_neg (Nat.not_lt_of_le h2)]

/-- C9: for every ad create, the final URL assigned to the operation is
the submitted `ad.url` followed by the fixed UTM suffix, whose template
placeholders are kept verbatim as literal text. -/
theorem C9_final_url_utm (account_id ad_group_id : String) (ad : AdData) :
    (prepare_ad_group_ad account_id ad_group_id ad).final_urls =
      [ad.url ++
        "?utm_source=google&utm_medium=cpc&utm_campaign=\x7b\x7bcampaignid\x7d\x7d&utm_term=\x7b\x7bkeyword\x7d\x7d&utm_content=\x7b\x7bcreative\x7d\x7d"] := by
  rfl

/-- Witness for C9 at a concrete ad. -/
theorem C9_witness :
    (prepare_ad_group_ad "1" "2" ⟨"https://x.com", [], []⟩).final_urls =
      ["https://x.com" ++
        "?utm_source=google&utm_medium=cpc&utm_campaign=\x7b\x7bcampaignid\x7d\x7d&utm_term=\x7b\x7bkeyword\x7d\x7d&utm_content=\x7b\x7bcreative\x7d\x7d"] :=
  C9_final_url_utm "1" "2" ⟨"https://x.com", [], []⟩

/-! ## Theorems for claims C1, C3, C5 -/

/-- C1: when the remote mutate call succeeds with one result per
operation, `add_keywords_to_googleads` returns exactly one
`(local_id, remote_resource_name)` pair per keyword, the i-th pair
combining `keywords[i].id` with `response.results[i].resource_name` —
same count and same order as the submitted operations. -/
theorem C1_positional_correlation (st : GoogleAdsKeywordIntegration) (oracle : MutateOracle)
    (results : List MutateResult)
    (hclient : st.client = true) (hkw : st.keywords ≠ [])
    (hok : oracle st.googleads_account_id
        (st.keywords.map fun keyword => create_base_criterion_operation st keyword.text false)
      = Except.ok results)
    (hlen : results.length = st.keywords.length) :
    ∃ pairs,
      add_keywords_to_googleads st oracle
          = (some (BatchMutateReturn.success pairs), st, true) ∧
        pairs.length = st.keywords.length ∧
        ∀ i (h1 : i < st.keywords.length) (h2 : i < results.length) (hp : i < pairs.length),
          pairs[i] = ((st.keywords[i]).id, (results[i]).resource_name) := by
  have hne : st.keywords.isEmpty = false := by
    simp [List.isEmpty_iff, hkw]
  refine ⟨List.zip (st.keywords.map Keyword.id) (results.map MutateResult.resource_name),
    ?_, ?_, ?_⟩
  · unfold add_keywords_to_googleads validate_prerequisites batch_mutate_keywords
    simp [hne, hclient, hok, process_mutation_response]
  · rw [List.length_zip]
    simp [hlen]
  · intro i h1 h2 hp
    rw [List.getElem_zip, List.getElem_map, List.getElem_map]

/-- Witness for C1: the concrete three-keyword state with a successful
oracle yields exactly the three positionally-correlated pairs. -/
theorem C1_witness :
    add_keywords_to_googleads keyword_state3 ok_oracle
      = (some (BatchMutateReturn.success [(1, "rn1"), (2, "rn2"), (3, "rn3")]),
          keyword_state3, true) := by
  obtain ⟨pairs, h1, h2, h3⟩ :=
    C1_positional_correlation keyword_state3 ok_oracle results3 rfl (by decide) rfl rfl
  have hall : pairs = [(1, "rn1"), (2, "rn2"), (3, "rn3")] := by
    have hc : add_keywords_to_googleads keyword_state3 ok_oracle
        = (some (BatchMutateReturn.success [(1, "rn1"), (2, "rn2"), (3, "rn3")]),
            keyword_state3, true) := by decide
    rw [hc] at h1
    have := congrArg Prod.fst h1
    simpa using this.symm
  rw [h1, hall]

/-- C5: with an empty keyword list (hence an empty operations list),
`add_keywords_to_googleads` returns `None` without calling the remote
service, and `_batch_mutate_keywords` returns the empty `([], [])`
result without calling the remote service, whatever operations are
passed.  The final `false` component records that no remote call was
made. -/
theorem C5_empty_batch_noop (st : GoogleAdsKeywordIntegration) (oracle : MutateOracle)
    (h : st.keywords = []) :
    add_keywords_to_googleads st oracle = (none, st, false) ∧
    ∀ operations is_negative,
      batch_mutate_keywords st oracle operations is_negative
        = (BatchMutateReturn.guard_empty, st, false) := by
  constructor
  · unfold add_keywords_to_googleads validate_prerequisites
    simp [h]
  · intro operations is_negative
    unfold batch_mutate_keywords
    simp [h]

/-- Witness for C5 at the concrete empty-keyword state. -/
theorem C5_witness :
    add_keywords_to_googleads keyword_state_empty ok_oracle
        = (none, keyword_state_empty, false) ∧
      batch_mutate_keywords keyword_state_empty ok_oracle [] false
        = (BatchMutateReturn.guard_empty, keyword_state_empty, false) :=
  ⟨(C5_empty_batch_noop keyword_state_empty ok_oracle rfl).1,
   (C5_empty_batch_noop keyword_state_empty ok_oracle rfl).2 [] false⟩

/-- C3 counterexample: with three keyword creates and a remote call that
raises, the facade's error list does NOT grow by one — it is unchanged
(`_batch_mutate_keywords` returns `(e, [])` without calling
`add_error`), refuting the claimed increase by exactly 1. -/
theorem C3_counterexample :
    (add_keywords_to_googleads keyword_state3 raising_oracle).2.1.errors.length
        = keyword_state3.errors.length ∧
      keyword_state3.errors.length = 0 ∧
      (add_keywords_to_googleads keyword_state3 raising_oracle).2.1.errors.length
        ≠ keyword_state3.errors.length + 1 ∧
      (add_keywords_to_googleads keyword_state3 raising_oracle).1
        = some (BatchMutateReturn.failure sample_exception) := by
  refine ⟨by decide, by decide, by decide, by decide⟩

/-- C3 amended: when the remote mutate call raises a
`GoogleAdsException`, the call returns the exception paired with an
empty result list — neither propagating the exception nor returning a
partial result — and leaves the facade's error list unchanged; the
separate `add_error` method is what appends one normalized error per
invocation, growing the list by exactly 1 when normalization succeeds. -/
theorem C3_amended_error_not_collected (st : GoogleAdsKeywordIntegration)
    (oracle : MutateOracle) (e : GoogleAdsException)
    (hclient : st.client = true) (hkw : st.keywords ≠ [])
    (herr : oracle st.googleads_account_id
        (st.keywords.map fun keyword => create_base_criterion_operation st keyword.text false)
      = Except.error e) :
    add_keywords_to_googleads st oracle = (some (BatchMutateReturn.failure e), st, true) ∧
    ∀ ex st', add_error st ex = Except.ok st' →
      st'.errors.length = st.errors.length + 1 := by
  constructor
  · have hne : st.keywords.isEmpty = false := by
      simp [List.isEmpty_iff, hkw]
    unfold add_keywords_to_googleads validate_prerequisites batch_mutate_keywords
    simp [hne, hclient, herr]
  · intro ex st' hok
    unfold add_error at hok
    cases hcr : create_error ex "Keyword" st.glitch_campaign_id none with
    | error msg =>
      rw [hcr] at hok
      exact Except.noConfusion hok
    | ok err =>
      rw [hcr] at hok
      injection hok with hst
      subst hst
      simp

/-- Witness for C3's amended statement at the concrete three-keyword
state, the raising oracle and `sample_exception`; the resulting state
with the one appended normalized error is spelled out. -/
theorem C3_witness :
    add_keywords_to_googleads keyword_state3 raising_oracle
        = (some (BatchMutateReturn.failure sample_exception), keyword_state3, true) ∧
      ({ keyword_state3 with errors :=
          [{ error_request_id := "req-1"
             error_code := "INTERNAL_ERROR"
             error_message := ""
             fields := []
             class_name := "Keyword"
             id := some "333"
             class_id := none
             details := []
             trigger := none
             location := none }] } : GoogleAdsKeywordIntegration).errors.length
        = keyword_state3.errors.length + 1 :=
  ⟨(C3_amended_error_not_collected keyword_state3 raising_oracle sample_exception
      rfl (by decide) rfl).1,
   (C3_amended_error_not_collected keyword_state3 raising_oracle sample_exception
      rfl (by decide) rfl).2 sample_exception _ rfl⟩

/-! ## Theorems for claim C2 -/

/-- Field extraction succeeds whenever every failure error's `location`
attribute is present (even as `None`), and yields no new fields when all
of them are `None`. -/
theorem extract_error_fields_go_ok :
    ∀ (es : List FailureError) (acc : List String),
      (∀ e ∈ es, e.location ≠ PyAttr.missing) →
      ∃ fs, extract_error_fields_go es acc = Except.ok fs ∧
        ((∀ e ∈ es, e.location = PyAttr.noneVal) → fs = acc)
  | [], acc, _ => ⟨acc, rfl, fun _ => rfl⟩
  | e :: rest, acc, h => by
    have hrest : ∀ x ∈ rest, x.location ≠ PyAttr.missing :=
      fun x hx => h x (List.mem_cons_of_mem _ hx)
    cases hloc : e.location with
    | missing => exact absurd hloc (h e (List.mem_cons_self e rest))
    | noneVal =>
      obtain ⟨fs, h1, h2⟩ := extract_error_fields_go_ok rest acc hrest
      refine ⟨fs, ?_, ?_⟩
      · simp [extract_error_fields_go, hloc, h1]
      · intro hall
        exact h2 fun x hx => hall x (List.mem_cons_of_mem _ hx)
    | val l =>
      obtain ⟨fs, h1, -⟩ := extract_error_fields_go_ok rest (acc ++ l.field_path_elements) hrest
      refine ⟨fs, ?_, ?_⟩
      · simp [extract_error_fields_go, hloc, h1]
      · intro hall
        have hv := hall e (List.mem_cons_self e rest)
        rw [hloc] at hv
        exact PyAttr.noConfusion hv

/-- C2 counterexample: for an exception whose single failure error lacks
the `location` attribute entirely, `create_error` does NOT return
normally: the fields tier evaluates `error.location` under a bare
truthiness guard with no `try`, so the `AttributeError` propagates out
of `create_error`. -/
theorem C2_counterexample :
    create_error exception_missing_location "Keyword" none none
      = Except.error "AttributeError" := by
  rfl

/-- C2 amended: whenever every failure error's `location` attribute is
present (possibly `None`), `create_error` returns normally; if all the
locations are `None` the extracted field-path list is empty; and the
message, details, trigger and location tiers are each computed by their
own independently guarded extractor, unaffected by the others. -/
theorem C2_amended_guarded_extraction (ex : GoogleAdsException) (class_name : String)
    (id class_id : Option String)
    (h : ∀ e ∈ ex.failure_errors, e.location ≠ PyAttr.missing) :
    ∃ err, create_error ex class_name id class_id = Except.ok err ∧
      ((∀ e ∈ ex.failure_errors, e.location = PyAttr.noneVal) → err.fields = []) ∧
      err.error_message = extract_error_message ex ∧
      err.details = extract_error_details ex ∧
      err.trigger = extract_trigger ex ∧
      err.location = extract_location ex := by
  obtain ⟨fs, h1, h2⟩ := extract_error_fields_go_ok ex.failure_errors [] h
  unfold create_error extract_error_fields
  rw [h1]
  exact ⟨_, rfl, fun hall => h2 hall, rfl, rfl, rfl, rfl⟩

/-- Witness for C2's amended statement: with the concrete exception
whose failure error has a present-but-`None` location, normalization
returns normally. -/
theorem C2_witness :
    (create_error exception_none_location "Ad" none none).isOk = true := by
  obtain ⟨err, h1, -, -, -, -, -⟩ :=
    C2_amended_guarded_extraction exception_none_location "Ad" none none (by decide)
  rw [h1]
  rfl

/-! ## Theorems for claim C4 -/

/-- Boolean acceptance test unfolded to its logical meaning. -/
theorem headline_acceptable_iff (existing_headlines : List String) (headline : String) :
    headline_acceptable existing_headlines headline = true ↔
      headline.length ≤ 29 ∧ headline ∉ existing_headlines := by
  unfold headline_acceptable
  simp

/-- Behaviour of the retry recursion: it succeeds exactly when some
attempt within the remaining budget yields an acceptable candidate, and
any returned value carries the requested keyword and an accepted
candidate. -/
theorem gen_ad_keyword_headline_go_spec (oracle : Nat → List String) (keyword : String)
    (existing_headlines : List String) :
    ∀ n attempt,
      ((gen_ad_keyword_headline_go oracle keyword existing_headlines n attempt).isSome = true ↔
        ∃ j, j < n ∧ ∃ h ∈ oracle (attempt + j),
          headline_acceptable existing_headlines h = true) ∧
      (∀ r, gen_ad_keyword_headline_go oracle keyword existing_headlines n attempt = some r →
        r.keyword = keyword ∧ headline_acceptable existing_headlines r.headline = true)
  | 0, attempt => by
    constructor
    · simp [gen_ad_keyword_headline_go]
    · intro r hr
      simp [gen_ad_keyword_headline_go] at hr
  | n + 1, attempt => by
    have ih := gen_ad_keyword_headline_go_spec oracle keyword existing_headlines n (attempt + 1)
    cases hf : (oracle attempt).find? (headline_acceptable existing_headlines) with
    | some h =>
      constructor
      · constructor
        · intro _
          exact ⟨0, Nat.succ_pos n, h,
            by simpa using List.mem_of_find?_eq_some hf, List.find?_some hf⟩
        · intro _
          simp [gen_ad_keyword_headline_go, hf]
      · intro r hr
        simp only [gen_ad_keyword_headline_go, hf] at hr
        injection hr with hr
        subst hr
        exact ⟨rfl, List.find?_some hf⟩
    | none =>
      constructor
      · constructor
        · intro hs
          simp only [gen_ad_keyword_headline_go, hf] at hs
          obtain ⟨j, hj, h, hmem, hacc⟩ := ih.1.mp hs
          refine ⟨j + 1, by omega, h, ?_, hacc⟩
          have harith : attempt + (j + 1) = attempt + 1 + j := by omega
          rw [harith]
          exact hmem
        · rintro ⟨j, hj, h, hmem, hacc⟩
          cases j with
          | zero =>
            have hno := List.find?_eq_none.mp hf h (by simpa using hmem)
            exact absurd hacc (by simpa using hno)
          | succ j' =>
            have hs : (gen_ad_keyword_headline_go oracle keyword existing_headlines
                n (attempt + 1)).isSome = true := by
              refine ih.1.mpr ⟨j', by omega, h, ?_, hacc⟩
              have harith : attempt + 1 + j' = attempt + (j' + 1) := by omega
              rw [harith]
              exact hmem
            simpa [gen_ad_keyword_headline_go, hf] using hs
      · intro r hr
        simp only [gen_ad_keyword_headline_go, hf] at hr
        exact ih.2 r hr

/-- C4: a candidate is accepted exactly when its length is at most 29
and it is not already among the caller-supplied existing headlines; the
call succeeds exactly when some attempt within the retry bound yields
such a candidate; when every candidate of every attempt within the bound
is rejected, the loop terminates by raising the permanent generation
failure instead of returning any text; and the default retry bound is 5. -/
theorem C4_constrained_generation_loop (oracle : Nat → List String) (keyword : String)
    (max_retries : Nat) (existing_headlines : List String) :
    (∀ r, gen_ad_keyword_headline oracle keyword max_retries existing_headlines
        = Except.ok r →
      r.keyword = keyword ∧ r.headline.length ≤ 29 ∧ r.headline ∉ existing_headlines) ∧
    ((∃ r, gen_ad_keyword_headline oracle keyword max_retries existing_headlines
        = Except.ok r) ↔
      ∃ i, i < max_retries ∧ ∃ h ∈ oracle i, h.length ≤ 29 ∧ h ∉ existing_headlines) ∧
    ((∀ i, i < max_retries → ∀ h ∈ oracle i, ¬(h.length ≤ 29 ∧ h ∉ existing_headlines)) →
      gen_ad_keyword_headline oracle keyword max_retries existing_headlines
        = Except.error
            ("Failed to generate a valid headline after " ++ toString max_retries
              ++ " retries")) ∧
    gen_ad_keyword_headline_default_retries = 5 := by
  have hspec := gen_ad_keyword_headline_go_spec oracle keyword existing_headlines max_retries 0
  refine ⟨?_, ?_, ?_, rfl⟩
  · intro r hr
    unfold gen_ad_keyword_headline at hr
    cases hg : gen_ad_keyword_headline_go oracle keyword existing_headlines max_retries 0 with
    | some r' =>
      rw [hg] at hr
      injection hr with hr
      subst hr
      obtain ⟨hk, hacc⟩ := hspec.2 r' hg
      obtain ⟨hl, hmem⟩ := (headline_acceptable_iff existing_headlines r'.headline).mp hacc
      exact ⟨hk, hl, hmem⟩
    | none =>
      rw [hg] at hr
      exact Except.noConfusion hr
  · constructor
    · rintro ⟨r, hr⟩
      unfold gen_ad_keyword_headline at hr
      cases hg : gen_ad_keyword_headline_go oracle keyword existing_headlines max_retries 0 with
      | some r' =>
        obtain ⟨j, hj, h, hmem, hacc⟩ := hspec.1.mp (by rw [hg]; rfl)
        exact ⟨j, hj, h, by simpa using hmem,
          (headline_acceptable_iff existing_headlines h).mp hacc⟩
      | none =>
        rw [hg] at hr
        exact Except.noConfusion hr
    · rintro ⟨i, hi, h, hmem, hok⟩
      have hs : (gen_ad_keyword_headline_go oracle keyword existing_headlines
          max_retries 0).isSome = true :=
        hspec.1.mpr ⟨i, hi, h, by simpa using hmem,
          (headline_acceptable_iff existing_headlines h).mpr hok⟩
      unfold gen_ad_keyword_headline
      cases hg : gen_ad_keyword_headline_go oracle keyword existing_headlines max_retries 0 with
      | some r' => exact ⟨r', rfl⟩
      | none => rw [hg] at hs; exact Bool.noConfusion hs
  · intro hall
    unfold gen_ad_keyword_headline
    cases hg : gen_ad_keyword_headline_go oracle keyword existing_headlines max_retries 0 with
    | some r' =>
      exfalso
      obtain ⟨j, hj, h, hmem, hacc⟩ := hspec.1.mp (by rw [hg]; rfl)
      exact hall j hj h (by simpa using hmem)
        ((headline_acceptable_iff existing_headlines h).mp hacc)
    | none => rfl

/-- Witness for C4: with an oracle that always produces a single
over-length candidate and retry bound 2, the loop terminates in the
permanent generation failure. -/
theorem C4_witness :
    gen_ad_keyword_headline rejecting_oracle "kw" 2 []
      = Except.error ("Failed to generate a valid headline after " ++ toString 2
          ++ " retries") :=
  (C4_constrained_generation_loop rejecting_oracle "kw" 2 []).2.2.1 (by decide)

/-! ## Theorems for claim C10 -/

/-- Every character of the `^[a-zA-Z0-9 ]*$` class is kept by the
`[^\w\s]` stripping substitution. -/
theorem keep_of_alnum_space (c : Char) (h : alnum_space_char c = true) :
    (py_word_char c || py_whitespace_char c) = true := by
  unfold alnum_space_char at h
  unfold py_word_char py_whitespace_char
  rcases (Bool.or_eq_true _ _).mp h with ha | hsp
  · simp [ha]
  · simp at hsp
    simp [hsp]

/-- When the whole string matches `^[a-zA-Z0-9 ]*$`, the stripping
substitution removes nothing. -/
theorem filter_keep_of_matches (v : String) (h : matches_alnum_space v = true) :
    v.data.filter (fun c => py_word_char c || py_whitespace_char c) = v.data := by
  rw [List.filter_eq_self]
  intro c hc
  unfold matches_alnum_space at h
  rcases (Bool.or_eq_true _ _).mp h with hall | hlast
  · exact keep_of_alnum_space c (List.all_eq_true.mp hall c hc)
  · cases hl : v.data.getLast? with
    | none =>
      rw [hl] at hlast
      exact Bool.noConfusion hlast
    | some cl =>
      rw [hl] at hlast
      obtain ⟨hcl, hdrop⟩ := (Bool.and_eq_true _ _).mp hlast
      have hclv : cl = '\n' := by simpa using hcl
      have hne : v.data ≠ [] := by
        intro hemp
        rw [hemp] at hl
        exact Option.noConfusion hl
      have hsplit : v.data.dropLast ++ [v.data.getLast hne] = v.data :=
        List.dropLast_append_getLast hne
      have hlastv : v.data.getLast hne = cl := by
        have hg := List.getLast?_eq_getLast v.data hne
        rw [hl] at hg
        exact (Option.some.injEq _ _ ▸ hg).symm
      rw [← hsplit] at hc
      rcases List.mem_append.mp hc with hcd | hcl2
      · exact keep_of_alnum_space c (List.all_eq_true.mp hdrop c hcd)
      · have hceq : c = cl := by
          rw [hlastv] at hcl2
          simpa using hcl2
        subst hceq
        subst hclv
        rfl

/-- C10: `llm_output_constraint_check` raises `ValueError` exactly when
the text exceeds the length bound; below the bound it returns the text
unchanged when it consists only of ASCII letters, digits and spaces, and
in every accepted case the result is the text with all characters that
are neither word characters nor whitespace removed — so its length never
exceeds the bound; the default bound is 30. -/
theorem C10_output_constraint (v : String) (length : Nat) :
    ((∃ msg, llm_output_constraint_check v length = Except.error msg) ↔ length < v.length) ∧
    (v.data.all alnum_space_char = true → v.length ≤ length →
      llm_output_constraint_check v length = Except.ok v) ∧
    (∀ w, llm_output_constraint_check v length = Except.ok w →
      w = String.mk (v.data.filter fun c => py_word_char c || py_whitespace_char c) ∧
        w.length ≤ length) ∧
    llm_output_constraint_check_default_length = 30 := by
  refine ⟨?_, ?_, ?_, rfl⟩
  · constructor
    · rintro ⟨msg, hmsg⟩
      by_cases hlt : v.length > length
      · exact hlt
      · exfalso
        unfold llm_output_constraint_check at hmsg
        rw [if_neg hlt] at hmsg
        split at hmsg
        · exact Except.noConfusion hmsg
        · exact Except.noConfusion hmsg
    · intro hlt
      exact ⟨_, by unfold llm_output_constraint_check; rw [if_pos hlt]⟩
  · intro hall hle
    have hm : matches_alnum_space v = true := by
      unfold matches_alnum_space
      exact (Bool.or_eq_true _ _).mpr (Or.inl hall)
    unfold llm_output_constraint_check
    rw [if_neg (Nat.not_lt.mpr hle)]
    simp [hm]
  · intro w hw
    unfold llm_output_constraint_check at hw
    by_cases hlt : v.length > length
    · rw [if_pos hlt] at hw
      exact Except.noConfusion hw
    · rw [if_neg hlt] at hw
      have hle : v.length ≤ length := Nat.not_lt.mp hlt
      cases hm : matches_alnum_space v with
      | false =>
        simp only [hm, Bool.not_false, if_true] at hw
        injection hw with hw
        subst hw
        refine ⟨rfl, ?_⟩
        have hfl : (v.data.filter fun c => py_word_char c || py_whitespace_char c).length
            ≤ v.data.length := List.length_filter_le _ _
        exact Nat.le_trans hfl hle
      | true =>
        simp only [hm, Bool.not_true, if_false] at hw
        injection hw with hw
        subst hw
        refine ⟨?_, hle⟩
        rw [filter_keep_of_matches v hm]

/-- Witness for C10 at a concrete in-bounds alphanumeric-and-space
string, returned unchanged. -/
theorem C10_witness :
    llm_output_constraint_check "hi there" 30 = Except.ok "hi there" :=
  (C10_output_constraint "hi there" 30).2.1 (by decide) (by decide)
